import Mathlib

/-!
Verification of the workflow-engine core of `app_og.py` (data-quality pipeline).

The engine operates on a schema-agnostic nested mapping (`RunState`, a Python
dict of numbers, strings, booleans, nulls, lists and nested dicts).  We embed
those values as the inductive type `Value` below; Python `None` is `Value.null`
and Python tuples are embedded as lists.  Dicts are embedded as insertion-
ordered association lists, matching Python dict semantics for `get`,
item assignment (update in place, append when new) and iteration order.

Fallible Python code (exceptions such as `AttributeError`, `TypeError` and
`KeyError`) is embedded as `Except String` with the error string describing
the exception.  Numeric comparisons are modelled on integer numbers; Python
coercions outside the claims (bool-as-int, float, str-str ordering) are
mapped to the `TypeError` branch.  The `while` loop of `execute_graph` is
embedded as fuel recursion where the fuel is `MAX_STEPS - visited`, and the
`MAX_STEPS = 200` constant is exposed as the `maxSteps` argument of
`execute_graph_cap` so that cap-independent properties can be stated;
`execute_graph` instantiates it with 200 exactly as the source does.
-/

namespace AppOg

/-- Embedding of Python values stored in a `RunState`. -/
inductive Value where
  | null : Value
  | num : Int → Value
  | str : String → Value
  | bool : Bool → Value
  | list : List Value → Value
  | dict : List (String × Value) → Value

mutual

/-- Structural equality on embedded values (Python `==` on these shapes). -/
def Value.beq : Value → Value → Bool
  | .null, .null => true
  | .num a, .num b => a == b
  | .str a, .str b => a == b
  | .bool a, .bool b => a == b
  | .list as, .list bs => Value.beqList as bs
  | .dict as, .dict bs => Value.beqFields as bs
  | _, _ => false

def Value.beqList : List Value → List Value → Bool
  | [], [] => true
  | a :: as, b :: bs => Value.beq a b && Value.beqList as bs
  | _, _ => false

def Value.beqFields : List (String × Value) → List (String × Value) → Bool
  | [], [] => true
  | (k, a) :: as, (k2, b) :: bs => k == k2 && Value.beq a b && Value.beqFields as bs
  | _, _ => false

end

mutual

theorem Value.eq_of_beq : ∀ {a b : Value}, Value.beq a b = true → a = b
  | .null, .null, _ => rfl
  | .num _, .num _, h => by simpa [Value.beq] using h
  | .str _, .str _, h => by simpa [Value.beq] using h
  | .bool _, .bool _, h => by simpa [Value.beq] using h
  | .list as, .list bs, h => by
      rw [Value.eqList_of_beq (a := as) (b := bs) (by simpa [Value.beq] using h)]
  | .dict as, .dict bs, h => by
      rw [Value.eqFields_of_beq (a := as) (b := bs) (by simpa [Value.beq] using h)]

theorem Value.eqList_of_beq : ∀ {a b : List Value}, Value.beqList a b = true → a = b
  | [], [], _ => rfl
  | x :: xs, y :: ys, h => by
      have h' := h
      simp only [Value.beqList, Bool.and_eq_true] at h'
      rw [Value.eq_of_beq h'.1, Value.eqList_of_beq h'.2]

theorem Value.eqFields_of_beq :
    ∀ {a b : List (String × Value)}, Value.beqFields a b = true → a = b
  | [], [], _ => rfl
  | (k, x) :: xs, (k2, y) :: ys, h => by
      have h' := h
      simp only [Value.beqFields, Bool.and_eq_true, beq_iff_eq] at h'
      rw [Value.eq_of_beq h'.1.2, Value.eqFields_of_beq h'.2, h'.1.1]

end

mutual

theorem Value.beq_refl : ∀ (a : Value), Value.beq a a = true
  | .null => rfl
  | .num _ => by simp [Value.beq]
  | .str _ => by simp [Value.beq]
  | .bool _ => by simp [Value.beq]
  | .list as => by simpa [Value.beq] using Value.beqList_refl as
  | .dict as => by simpa [Value.beq] using Value.beqFields_refl as

theorem Value.beqList_refl : ∀ (a : List Value), Value.beqList a a = true
  | [] => rfl
  | x :: xs => by
      simp only [Value.beqList, Bool.and_eq_true]
      exact ⟨Value.beq_refl x, Value.beqList_refl xs⟩

theorem Value.beqFields_refl : ∀ (a : List (String × Value)), Value.beqFields a a = true
  | [] => rfl
  | (k, x) :: xs => by
      simp only [Value.beqFields, Bool.and_eq_true]
      exact ⟨⟨by simp, Value.beq_refl x⟩, Value.beqFields_refl xs⟩

end

instance : DecidableEq Value := fun a b =>
  if h : Value.beq a b = true then .isTrue (Value.eq_of_beq h)
  else .isFalse (fun he => h (he ▸ Value.beq_refl a))

/-- First-occurrence lookup in an association list (Python dict lookup). -/
def lookupStr {α : Type} : List (String × α) → String → Option α
  | [], _ => none
  | (k, v) :: rest, key => if key = k then some v else lookupStr rest key

/-- Python dict update: replace the value in place when the key is present,
append the binding at the end otherwise. -/
def setField : List (String × Value) → String → Value → List (String × Value)
  | [], k, x => [(k, x)]
  | (k2, v) :: rest, k, x =>
      if k2 = k then (k2, x) :: rest else (k2, v) :: setField rest k x

/-- Python `state.get(k, default)`: raises `AttributeError` when the receiver
is not a dict, otherwise returns the stored value (even a stored `None`) or
the default. -/
def dictGetD (v : Value) (k : String) (d : Value) : Except String Value :=
  match v with
  | .dict fields =>
      match lookupStr fields k with
      | some x => .ok x
      | none => .ok d
  | _ => .error "AttributeError: object has no attribute get"

/-- Python `r[k]` subscripting: `KeyError` when absent, `TypeError` on a
non-dict receiver. -/
def strictGet (v : Value) (k : String) : Except String Value :=
  match v with
  | .dict fields =>
      match lookupStr fields k with
      | some x => .ok x
      | none => .error ("KeyError: " ++ k)
  | _ => .error "TypeError: object is not subscriptable"

/-- Python `state[k] = x` item assignment. -/
def dictSet (v : Value) (k : String) (x : Value) : Except String Value :=
  match v with
  | .dict fields => .ok (.dict (setField fields k x))
  | _ => .error "TypeError: object does not support item assignment"

/-- Observation helper for stating theorems: the value stored at a key of a
dict state, if any. -/
def dictLookup : Value → String → Option Value
  | .dict fields, k => lookupStr fields k
  | _, _ => none

/-- Python iteration `for v in data`: only sequences are iterable here. -/
def asList : Value → Except String (List Value)
  | .list xs => .ok xs
  | _ => .error "TypeError: object is not iterable"

/-- Python 2-tuple unpacking `low, high = bounds`. -/
def unpack2 : Value → Except String (Value × Value)
  | .list [a, b] => .ok (a, b)
  | _ => .error "TypeError: cannot unpack"

/-- Python `a < b` on run-state scalars (numeric comparisons are modelled;
other operand shapes raise `TypeError`). -/
def pyLt : Value → Value → Except String Bool
  | .num a, .num b => .ok (decide (a < b))
  | _, _ => .error "TypeError: unsupported comparison"

/-- Python `a <= b`. -/
def pyLe : Value → Value → Except String Bool
  | .num a, .num b => .ok (decide (a ≤ b))
  | _, _ => .error "TypeError: unsupported comparison"

/-- Python `a > b`. -/
def pyGt : Value → Value → Except String Bool
  | .num a, .num b => .ok (decide (a > b))
  | _, _ => .error "TypeError: unsupported comparison"

/-- Python `a >= b`. -/
def pyGe : Value → Value → Except String Bool
  | .num a, .num b => .ok (decide (a ≥ b))
  | _, _ => .error "TypeError: unsupported comparison"

/-- Python `min(a, b)` on numbers. -/
def pyMin : Value → Value → Except String Value
  | .num a, .num b => .ok (.num (min a b))
  | _, _ => .error "TypeError: unsupported comparison"

/-- Python `max(a, b)` on numbers. -/
def pyMax : Value → Value → Except String Value
  | .num a, .num b => .ok (.num (max a b))
  | _, _ => .error "TypeError: unsupported comparison"

/-- Python `v is None`. -/
def isNull : Value → Bool
  | .null => true
  | _ => false

/-- A registered tool: a transform over the run state that may raise. -/
def PyTool : Type := Value → Except String Value

/-- Tool `profile_data_tool`: reads `data`, writes `profile = dict(rows, nulls)`. -/
def profile_data_tool (state : Value) : Except String Value :=
  match dictGetD state "data" (.list []) with
  | .error e => .error e
  | .ok data =>
      match asList data with
      | .error e => .error e
      | .ok xs =>
          dictSet state "profile"
            (.dict [("rows", .num (xs.length : Int)),
                    ("nulls", .num ((xs.filter isNull).length : Int))])

/-- The filtering comprehension of `detect_anomalies_tool`:
entries that are not `None` and fall outside `(low, high)`; the `v < low`
comparison is evaluated first and `v > high` only when it was false,
mirroring Python short-circuiting (and its error order). -/
def filterAnoms (low high : Value) : List Value → Except String (List Value)
  | [] => .ok []
  | v :: rest =>
      if isNull v then filterAnoms low high rest
      else
        match pyLt v low with
        | .error e => .error e
        | .ok lb =>
            match (if lb then .ok true else pyGt v high : Except String Bool) with
            | .error e => .error e
            | .ok b =>
                match filterAnoms low high rest with
                | .error e => .error e
                | .ok tail => .ok (if b then v :: tail else tail)

/-- Tool `detect_anomalies_tool`: reads `data` and `anomaly_bounds` (default
`(0, 100)`), writes `anomalies = dict(count, values = first 10)`. -/
def detect_anomalies_tool (state : Value) : Except String Value :=
  match dictGetD state "data" (.list []) with
  | .error e => .error e
  | .ok data =>
      match dictGetD state "anomaly_bounds" (.list [.num 0, .num 100]) with
      | .error e => .error e
      | .ok bounds =>
          match unpack2 bounds with
          | .error e => .error e
          | .ok (low, high) =>
              match asList data with
              | .error e => .error e
              | .ok xs =>
                  match filterAnoms low high xs with
                  | .error e => .error e
                  | .ok anomalies =>
                      dictSet state "anomalies"
                        (.dict [("count", .num (anomalies.length : Int)),
                                ("values", .list (anomalies.take 10))])

/-- The `fill_null` rule literal produced by `generate_rules_tool`. -/
def fillNullRule : Value :=
  .dict [("name", .str "fill_null"), ("action", .str "fill"), ("value", .num 0)]

/-- The `clip` rule literal produced by `generate_rules_tool`. -/
def clipRule (low high : Value) : Value :=
  .dict [("name", .str "clip"), ("action", .str "clip"), ("low", low), ("high", high)]

/-- Tool `generate_rules_tool`: appends a `fill_null` rule when `profile.nulls > 0`
and a `clip` rule when `anomalies.count > 0` (fill rule first), then writes
`rules`. -/
def generate_rules_tool (state : Value) : Except String Value :=
  match dictGetD state "profile" (.dict []) with
  | .error e => .error e
  | .ok prof =>
      match dictGetD prof "nulls" (.num 0) with
      | .error e => .error e
      | .ok nulls =>
          match pyGt nulls (.num 0) with
          | .error e => .error e
          | .ok c1 =>
              match dictGetD state "anomalies" (.dict []) with
              | .error e => .error e
              | .ok anoms =>
                  match dictGetD anoms "count" (.num 0) with
                  | .error e => .error e
                  | .ok cnt =>
                      match pyGt cnt (.num 0) with
                      | .error e => .error e
                      | .ok c2 =>
                          if c2 then
                            match dictGetD state "anomaly_bounds"
                                (.list [.num 0, .num 100]) with
                            | .error e => .error e
                            | .ok bounds =>
                                match unpack2 bounds with
                                | .error e => .error e
                                | .ok (low, high) =>
                                    dictSet state "rules"
                                      (.list ((if c1 then [fillNullRule] else []) ++
                                        [clipRule low high]))
                          else
                            dictSet state "rules"
                              (.list (if c1 then [fillNullRule] else []))

/-- Source expression `next(r for r in rules if r.get("name") == nm)`, scanning left to right;
raises when a scanned rule is not a dict (Python `r.get` on a non-dict). -/
def findRuleL : List Value → String → Except String (Option Value)
  | [], _ => .ok none
  | r :: rest, nm =>
      match dictGetD r "name" .null with
      | .error e => .error e
      | .ok n => if n = .str nm then .ok (some r) else findRuleL rest nm

/-- The rule search applied to the raw `rules` value; iterating a
non-sequence raises. -/
def findRule (rules : Value) (nm : String) : Except String (Option Value) :=
  match rules with
  | .list rs => findRuleL rs nm
  | _ => .error "TypeError: rules object is not iterable"

/-- Source expression `max(low, min(high, v))` using the fields of a clip rule `c`,
in Python evaluation order. -/
def clampWith (c v : Value) : Except String Value :=
  match strictGet c "low" with
  | .error e => .error e
  | .ok low =>
      match strictGet c "high" with
      | .error e => .error e
      | .ok high =>
          match pyMin high v with
          | .error e => .error e
          | .ok m => pyMax low m

/-- The per-element body of the `apply_rules_tool` loop: fill a `None` entry
from the `fill_null` rule (if any), clamp a non-`None` entry with the `clip`
rule (if any).  The rule searches run lazily per element, as in the source. -/
def applyElem (rules v : Value) : Except String Value :=
  if isNull v then
    match findRule rules "fill_null" with
    | .error e => .error e
    | .ok (some r) => strictGet r "value"
    | .ok none => .ok v
  else
    match findRule rules "clip" with
    | .error e => .error e
    | .ok (some c) => clampWith c v
    | .ok none => .ok v

/-- Left-to-right effectful map building `new_data`. -/
def mapExcept (f : Value → Except String Value) : List Value → Except String (List Value)
  | [] => .ok []
  | x :: xs =>
      match f x with
      | .error e => .error e
      | .ok y =>
          match mapExcept f xs with
          | .error e => .error e
          | .ok ys => .ok (y :: ys)

/-- Tool `apply_rules_tool`: reads `data` and `rules`, rebuilds `data`. -/
def apply_rules_tool (state : Value) : Except String Value :=
  match dictGetD state "data" (.list []) with
  | .error e => .error e
  | .ok data =>
      match dictGetD state "rules" (.list []) with
      | .error e => .error e
      | .ok rules =>
          match asList data with
          | .error e => .error e
          | .ok xs =>
              match mapExcept (applyElem rules) xs with
              | .error e => .error e
              | .ok newData => dictSet state "data" (.list newData)

/-- The `TOOLS` registry of the source file. -/
def TOOLS : String → Option PyTool
  | "profile" => some profile_data_tool
  | "detect_anomalies" => some detect_anomalies_tool
  | "generate_rules" => some generate_rules_tool
  | "apply_rules" => some apply_rules_tool
  | _ => none

/-- The `loop_condition` mapping of a `GraphDef`, in the well-formed shape
documented for it: a dotted metric path, a comparator and a target value. -/
structure LoopCond where
  metric : String
  op : String
  value : Value
deriving DecidableEq

/-- The `GraphDef` model: node-to-tool names, at most one outgoing edge per
node, a start node and an optional loop condition. -/
structure GraphDef where
  nodes : List (String × String)
  edges : List (String × String)
  start_node : String
  loop_condition : Option LoopCond

/-- Python `"x.y.z".split(".")` (note `"".split(".") = [""]`). -/
def splitAcc : List Char → List Char → List String
  | [], acc => [String.mk acc.reverse]
  | c :: cs, acc =>
      if c = '.' then String.mk acc.reverse :: splitAcc cs []
      else splitAcc cs (c :: acc)

/-- Split a dotted path into its segments. -/
def splitDots (s : String) : List String := splitAcc s.toList []

/-- The loop of `_resolve_metric`: at each segment, a `None` cursor is
returned as is, a dict cursor is advanced with `cur.get(p)` (absent keys
give `None`), and any other cursor raises `AttributeError` (Python
`cur.get` on a non-dict). -/
def resolveParts : List String → Value → Except String Value
  | [], cur => .ok cur
  | p :: ps, cur =>
      match cur with
      | .null => .ok .null
      | .dict fields =>
          resolveParts ps (match lookupStr fields p with
            | some x => x
            | none => .null)
      | _ => .error "AttributeError: object has no attribute get"

/-- Helper `_resolve_metric(state, metric_path)`. -/
def _resolve_metric (state : Value) (metric_path : String) : Except String Value :=
  resolveParts (splitDots metric_path) state

/-- Comparator dispatch of `_condition_satisfied`; an unrecognized comparator
falls through to not-satisfied. -/
def cmpOp (op : String) (metricVal target : Value) : Except String Bool :=
  if op = "<=" then pyLe metricVal target
  else if op = "<" then pyLt metricVal target
  else if op = ">=" then pyGe metricVal target
  else if op = ">" then pyGt metricVal target
  else if op = "==" then .ok (decide (metricVal = target))
  else if op = "!=" then .ok (decide (metricVal ≠ target))
  else .ok false

/-- Helper `_condition_satisfied(snap)`: `(False, None)` without a condition;
otherwise resolve the metric, treat a `None` metric as not satisfied, and
dispatch on the comparator.  Errors raised while resolving or comparing
propagate (they are not caught anywhere in `execute_graph`). -/
def _condition_satisfied (graph : GraphDef) (snap : Value) : Except String (Bool × Value) :=
  match graph.loop_condition with
  | none => .ok (false, .null)
  | some lc =>
      match _resolve_metric snap lc.metric with
      | .error e => .error e
      | .ok mv =>
          if mv = .null then .ok (false, mv)
          else
            match cmpOp lc.op mv lc.value with
            | .error e => .error e
            | .ok b => .ok (b, mv)

/-- Run status of a `RUNS` record. -/
inductive Status where
  | running : Status
  | finished : Status
  | failed : Status
deriving DecidableEq

/-- The observable run record at the end of `execute_graph`, plus the number
of loop iterations entered (the final value of `visited`), which instruments
the step-count claims. -/
structure RunRecord where
  state : Value
  log : List String
  status : Status
  executions : Nat
deriving DecidableEq

/-- Source expression `graph["nodes"].get(current)`. -/
def toolNameOf (graph : GraphDef) (current : String) : Option String :=
  lookupStr graph.nodes current

/-- Source expression `TOOLS.get(tool_name)` where `tool_name` may be `None`. -/
def getTool (tools : String → Option PyTool) (graph : GraphDef) (current : String) :
    Option PyTool :=
  (toolNameOf graph current).bind tools

/-- Render an optional tool name the way a Python f-string does. -/
def optStr : Option String → String
  | some s => s
  | none => "None"

/-- The `Running node: ...` log entry. -/
def runEntry (graph : GraphDef) (current : String) : String :=
  "Running node: " ++ current ++ " -> " ++ optStr (toolNameOf graph current)

/-- The `Missing tool: ...` log entry. -/
def missingEntry (graph : GraphDef) (current : String) : String :=
  "Missing tool: " ++ optStr (toolNameOf graph current)

/-- The `Exception in ...` log entry; it carries the description of the
raised error. -/
def excEntry (graph : GraphDef) (current : String) (e : String) : String :=
  "Exception in " ++ optStr (toolNameOf graph current) ++ ": " ++ e

/-- A compact rendering of the resolved metric for the loop-stop log entry. -/
def renderV : Value → String
  | .null => "None"
  | .num n => toString n
  | .str s => s
  | .bool b => toString b
  | .list _ => "list"
  | .dict _ => "dict"

/-- The `Loop stop satisfied: ...` log entry (the textual rendering of the
condition itself is abridged; no claim inspects this text). -/
def stopEntry (mv : Value) : String :=
  "Loop stop satisfied (metric=" ++ renderV mv ++ ")"

/-- The non-progress log entry. -/
def unchangedEntry : String := "State unchanged — stopping to avoid infinite loop."

/-- Source statement `result = tool_fn(state); if result is not None: state = result`. -/
def newState (state result : Value) : Value :=
  if result = .null then state else result

/-- The `while current and visited < MAX_STEPS` loop exits and the trailing
normal-finish block of `execute_graph` (status was still `running`, so it is
set to `finished` and the final entry appended). -/
def normalFinish (state : Value) (log : List String) (visited : Nat) : RunRecord :=
  { state := state, log := log ++ ["Execution finished"], status := .finished,
    executions := visited }

/-- The body of `execute_graph`, as fuel recursion with
`fuel = MAX_STEPS - visited`.  Each branch writes the run record exactly as
the corresponding source branch persists `RUNS[run_id]`; the branch where
`_condition_satisfied` raises leaves the record `running` with the state and
log copy pushed just before the check (the exception escapes the executor). -/
def execLoop (tools : String → Option PyTool) (graph : GraphDef) :
    Nat → String → Value → Value → List String → Nat → RunRecord
  | 0, _, state, _, log, visited => normalFinish state log visited
  | fuel + 1, current, state, prev, log, visited =>
      if current = "" then normalFinish state log visited
      else
        match getTool tools graph current with
        | none =>
            { state := state,
              log := (log ++ [runEntry graph current]) ++ [missingEntry graph current],
              status := .failed, executions := visited + 1 }
        | some fn =>
            match fn state with
            | .error e =>
                { state := state,
                  log := (log ++ [runEntry graph current]) ++ [excEntry graph current e],
                  status := .failed, executions := visited + 1 }
            | .ok result =>
                match _condition_satisfied graph (newState state result) with
                | .error _ =>
                    { state := newState state result,
                      log := log ++ [runEntry graph current],
                      status := .running, executions := visited + 1 }
                | .ok (satisfied, metricVal) =>
                    if satisfied then
                      { state := newState state result,
                        log := (log ++ [runEntry graph current]) ++ [stopEntry metricVal],
                        status := .finished, executions := visited + 1 }
                    else if newState state result = prev then
                      { state := newState state result,
                        log := (log ++ [runEntry graph current]) ++ [unchangedEntry],
                        status := .finished, executions := visited + 1 }
                    else
                      match lookupStr graph.edges current with
                      | none =>
                          normalFinish (newState state result)
                            (log ++ [runEntry graph current]) (visited + 1)
                      | some next =>
                          if next = "" then
                            normalFinish (newState state result)
                              (log ++ [runEntry graph current]) (visited + 1)
                          else
                            execLoop tools graph fuel next (newState state result)
                              (newState state result)
                              (log ++ [runEntry graph current]) (visited + 1)

/-- Executor `execute_graph` with the `MAX_STEPS` constant exposed as a parameter. -/
def execute_graph_cap (tools : String → Option PyTool) (graph : GraphDef)
    (maxSteps : Nat) (initState : Value) : RunRecord :=
  execLoop tools graph maxSteps graph.start_node initState initState [] 0

/-- Executor `execute_graph`: starts at `start_node` with a deep snapshot of the
initial state as `prevState`, an empty log, `visited = 0` and
`MAX_STEPS = 200`. -/
def execute_graph (tools : String → Option PyTool) (graph : GraphDef)
    (initState : Value) : RunRecord :=
  execute_graph_cap tools graph 200 initState

/-- The linear pipeline graph of the end-to-end scenario. -/
def pipelineGraph : GraphDef :=
  { nodes := [("profile", "profile"), ("detect_anomalies", "detect_anomalies"),
              ("generate_rules", "generate_rules"), ("apply_rules", "apply_rules")],
    edges := [("profile", "detect_anomalies"), ("detect_anomalies", "generate_rules"),
              ("generate_rules", "apply_rules")],
    start_node := "profile",
    loop_condition := none }

/-- The initial state of the end-to-end scenario:
`data = [1, None, 150]`, `anomaly_bounds = (0, 100)`. -/
def pipelineInit : Value :=
  .dict [("data", .list [.num 1, .null, .num 150]),
         ("anomaly_bounds", .list [.num 0, .num 100])]

/-- Precise presence of a dotted path in a value tree: every intermediate
segment is a dict containing the key.  Used to state, from the spec side,
that a path is present (as opposed to the sentinel the resolver returns). -/
def getPath : Value → List String → Option Value
  | v, [] => some v
  | .dict fields, p :: ps =>
      match lookupStr fields p with
      | some v => getPath v ps
      | none => none
  | _, _ :: _ => none

/-- Stability of a rules value under re-application: when a `fill_null` rule
with a non-`None` fill value is present, the `clip`-rule search must not
raise, and if a clip rule exists, clamping the fill value must return it
unchanged.  This is exactly the side condition under which a second
`apply_rules` pass is a no-op on `data`. -/
def fillStableB (rules : Value) : Bool :=
  match findRule rules "fill_null" with
  | .ok (some r) =>
      match strictGet r "value" with
      | .ok f =>
          if f = .null then true
          else
            match findRule rules "clip" with
            | .ok (some c) =>
                (match clampWith c f with
                 | .ok f2 => decide (f2 = f)
                 | .error _ => false)
            | .ok none => true
            | .error _ => false
      | .error _ => true
  | _ => true

/-- The single-node self-loop graph of the safety-fixed-point scenario. -/
def singletonGraph (name tname : String) : GraphDef :=
  { nodes := [(name, tname)], edges := [(name, name)], start_node := name,
    loop_condition := none }

/-- A registry holding one tool that is the identity on the run state. -/
def idRegistry : String → Option PyTool
  | "id" => some (fun s => .ok s)
  | _ => none

/-- Single-node graph whose condition `profile.rows >= 0` is satisfied right
after the first node execution. -/
def condGraphC1 : GraphDef :=
  { nodes := [("p", "profile")], edges := [], start_node := "p",
    loop_condition := some { metric := "profile.rows", op := ">=", value := .num 0 } }

/-- Initial state for `condGraphC1`: an empty data sequence. -/
def initC1 : Value := .dict [("data", .list [])]

/-- The state produced by `profile` on `initC1`. -/
def stateC1 : Value :=
  .dict [("data", .list []),
         ("profile", .dict [("rows", .num 0), ("nulls", .num 0)])]

/-- Two-node graph whose second node references a missing tool, after a first
node that does change the state. -/
def cexGraphC7 : GraphDef :=
  { nodes := [("a", "profile"), ("b", "nonexistent")], edges := [("a", "b")],
    start_node := "a", loop_condition := none }

/-- Initial state for `cexGraphC7`. -/
def cexInitC7 : Value := .dict [("data", .list [.null])]

/-- Single-node graph bound to `profile`. -/
def failGraphC8 : GraphDef :=
  { nodes := [("p", "profile")], edges := [], start_node := "p",
    loop_condition := none }

/-- A state on which `profile` raises: `data` is not iterable. -/
def badInitC8 : Value := .dict [("data", .num 5)]

/-- A `fill_null` rule whose fill value 500 lies outside the clip bounds. -/
def fillRule500 : Value :=
  .dict [("name", .str "fill_null"), ("action", .str "fill"), ("value", .num 500)]

/-- State on which `apply_rules` is not idempotent: the filled value 500 is
clipped to 100 by the second application. -/
def cexStateC6 : Value :=
  .dict [("data", .list [.null]),
         ("rules", .list [fillRule500, clipRule (.num 0) (.num 100)])]

/-- A stable state for the amended idempotence claim (fill value 0 lies
inside the clip bounds). -/
def stableStateC6 : Value :=
  .dict [("data", .list [.num 1, .null, .num 150]),
         ("rules", .list [fillNullRule, clipRule (.num 0) (.num 100)])]

/-- A state in which the path `anomalies.count` is present and its final
value is `None`. -/
def presentNullState : Value :=
  .dict [("anomalies", .dict [("count", .null)])]

/-- A graph configured with the condition `anomalies.count <= 0`. -/
def condGraphC5 : GraphDef :=
  { nodes := [], edges := [], start_node := "",
    loop_condition := some { metric := "anomalies.count", op := "<=", value := .num 0 } }

theorem lookupStr_setField_self :
    ∀ (fields : List (String × Value)) (k : String) (x : Value),
    lookupStr (setField fields k x) k = some x
  | [], k, x => by simp [setField, lookupStr]
  | (k2, v) :: tl, k, x => by
      by_cases h : k2 = k
      · subst h; simp [setField, lookupStr]
      · simp only [setField, if_neg h, lookupStr]
        rw [if_neg (fun hh => h hh.symm)]
        exact lookupStr_setField_self tl k x

theorem lookupStr_setField_ne :
    ∀ (fields : List (String × Value)) (k k' : String) (x : Value), k' ≠ k →
    lookupStr (setField fields k x) k' = lookupStr fields k'
  | [], k, k', x, h => by simp [setField, lookupStr, h]
  | (k2, v) :: tl, k, k', x, h => by
      by_cases h2 : k2 = k
      · subst h2; simp [setField, lookupStr, fun hh => h hh]
      · simp only [setField, if_neg h2, lookupStr]
        by_cases h3 : k' = k2
        · simp [h3]
        · rw [if_neg h3, if_neg h3]
          exact lookupStr_setField_ne tl k k' x h

theorem resolveParts_of_getPath_null :
    ∀ (parts : List String) (v : Value),
    getPath v parts = some .null → resolveParts parts v = .ok .null
  | [], v, h => by
      simp only [getPath, Option.some_inj] at h
      simp [resolveParts, h]
  | p :: ps, v, h => by
      cases v with
      | dict fields =>
          simp only [getPath] at h
          cases hl : lookupStr fields p with
          | none => rw [hl] at h; simp at h
          | some w =>
              rw [hl] at h
              simp only [resolveParts, hl]
              exact resolveParts_of_getPath_null ps w h
      | null => simp [getPath] at h
      | num n => simp [getPath] at h
      | str s => simp [getPath] at h
      | bool b => simp [getPath] at h
      | list vs => simp [getPath] at h

/-- C2.  End-to-end pipeline scenario: on the linear graph
`profile -> detect_anomalies -> generate_rules -> apply_rules` with no loop
condition, started on `data = [1, None, 150]` and `anomaly_bounds = (0, 100)`,
the run finishes with status `Finished`, final `data = [1, 0, 100]`,
`profile = dict(rows 3, nulls 1)`, `anomalies = dict(count 1, values [150])`,
and `rules` containing both the `fill_null` rule and the `clip` rule. -/
theorem pipeline_scenario :
    (execute_graph TOOLS pipelineGraph pipelineInit).status = .finished ∧
    dictLookup (execute_graph TOOLS pipelineGraph pipelineInit).state "data" =
      some (.list [.num 1, .num 0, .num 100]) ∧
    dictLookup (execute_graph TOOLS pipelineGraph pipelineInit).state "profile" =
      some (.dict [("rows", .num 3), ("nulls", .num 1)]) ∧
    dictLookup (execute_graph TOOLS pipelineGraph pipelineInit).state "anomalies" =
      some (.dict [("count", .num 1), ("values", .list [.num 150])]) ∧
    dictLookup (execute_graph TOOLS pipelineGraph pipelineInit).state "rules" =
      some (.list [fillNullRule, clipRule (.num 0) (.num 100)]) := by
  refine ⟨by decide, by decide, by decide, by decide, by decide⟩

/-- C4.  The metric resolver is not total: on a state where an intermediate
segment is present but bound to a non-mapping, non-`None` value, the source
calls `.get` on that value and raises `AttributeError` instead of returning
the absent sentinel (the exception escapes `_condition_satisfied` and
`execute_graph`).  Failing input: state `dict(a = 5)`, path `"a.b"`. -/
theorem resolve_metric_nonmapping_raises :
    _resolve_metric (.dict [("a", .num 5)]) "a.b" =
      .error "AttributeError: object has no attribute get" := rfl

/-- C5 counterexample.  A present `None` at the metric path is NOT
distinguishable from an absent path: on a state where `anomalies.count` is
present with value `None` (witnessed by `getPath`) and on a state where the
path is entirely absent, `_resolve_metric` returns the very same sentinel
`None`. -/
theorem present_null_indistinguishable_cex :
    _resolve_metric presentNullState "anomalies.count" = .ok .null ∧
    _resolve_metric (.dict []) "anomalies.count" = .ok .null ∧
    getPath presentNullState (splitDots "anomalies.count") = some .null ∧
    getPath (.dict []) (splitDots "anomalies.count") = none :=
  ⟨rfl, rfl, rfl, rfl⟩

/-- C5 amended.  When the full dotted metric path is present and its final
value is `None`, the resolver returns the same `None` sentinel it returns for
a missing path, and the condition evaluator consequently treats the
present-`None` metric exactly like a not-yet-present one: not satisfied. -/
theorem present_null_treated_as_absent (state : Value) (graph : GraphDef) (lc : LoopCond)
    (hg : graph.loop_condition = some lc)
    (hp : getPath state (splitDots lc.metric) = some .null) :
    _resolve_metric state lc.metric = .ok .null ∧
    _condition_satisfied graph state = .ok (false, .null) := by
  have h1 : _resolve_metric state lc.metric = .ok .null :=
    resolveParts_of_getPath_null _ _ hp
  refine ⟨h1, ?_⟩
  simp [_condition_satisfied, hg, h1]

/-- Witness for `present_null_treated_as_absent` at the concrete state
`dict(anomalies = dict(count = None))` and condition `anomalies.count <= 0`. -/
theorem present_null_treated_as_absent_witness :
    getPath presentNullState (splitDots "anomalies.count") = some .null ∧
    _resolve_metric presentNullState "anomalies.count" = .ok .null ∧
    _condition_satisfied condGraphC5 presentNullState = .ok (false, .null) := by
  have h := present_null_treated_as_absent presentNullState condGraphC5
    { metric := "anomalies.count", op := "<=", value := .num 0 } rfl (by decide)
  exact ⟨by decide, h.1, h.2⟩

/-- C1.  Immediate loop-stop: from any loop configuration of any run — about
to execute its node at step `visited + 1` with fuel remaining — if the bound
tool succeeds and the loop condition evaluates to satisfied on the state the
node produced, the executor returns at once with status `Finished`, exactly
`visited + 1` node executions, the produced state persisted and the loop-stop
entry logged; no further node executes. -/
theorem immediate_loop_stop (tools : String → Option PyTool) (graph : GraphDef)
    (fuel visited : Nat) (current : String) (state prev : Value)
    (log : List String) (fn : PyTool) (result mv : Value)
    (hcur : current ≠ "")
    (hfn : getTool tools graph current = some fn)
    (hres : fn state = .ok result)
    (hcond : _condition_satisfied graph (newState state result) = .ok (true, mv)) :
    execLoop tools graph (fuel + 1) current state prev log visited =
      { state := newState state result,
        log := (log ++ [runEntry graph current]) ++ [stopEntry mv],
        status := .finished, executions := visited + 1 } := by
  simp [execLoop, hcur, hfn, hres, hcond]

/-- Witness for `immediate_loop_stop`: on `condGraphC1` (condition
`profile.rows >= 0`) with initial state `dict(data = [])`, the run stops
`Finished` after the single `profile` execution. -/
theorem immediate_loop_stop_witness :
    execute_graph TOOLS condGraphC1 initC1 =
      { state := stateC1,
        log := [runEntry condGraphC1 "p", stopEntry (.num 0)],
        status := .finished, executions := 1 } := by
  have h := immediate_loop_stop TOOLS condGraphC1 199 0 "p" initC1 initC1 []
    profile_data_tool stateC1 (.num 0) (by decide) rfl rfl rfl
  simpa using h

/-- C7 amended.  From any loop configuration whose current node references a
tool name absent from the registry, the run ends `Failed` immediately: the
log gains the node entry and the `Missing tool` entry naming the missing
tool, the persisted state is exactly the state with which the node was
reached (the state produced by the last successful node — equal to the run
input state when the missing tool is at the start node), and no further node
executions occur. -/
theorem missing_tool_fails (tools : String → Option PyTool) (graph : GraphDef)
    (fuel visited : Nat) (current : String) (state prev : Value) (log : List String)
    (hcur : current ≠ "")
    (hfn : getTool tools graph current = none) :
    execLoop tools graph (fuel + 1) current state prev log visited =
      { state := state,
        log := (log ++ [runEntry graph current]) ++ [missingEntry graph current],
        status := .failed, executions := visited + 1 } := by
  simp [execLoop, hcur, hfn]

/-- Witness for `missing_tool_fails`: node `b` of `cexGraphC7` references the
unregistered tool `nonexistent`. -/
theorem missing_tool_fails_witness :
    execLoop TOOLS cexGraphC7 199 "b" cexInitC7 cexInitC7 [] 1 =
      { state := cexInitC7,
        log := [runEntry cexGraphC7 "b", missingEntry cexGraphC7 "b"],
        status := .failed, executions := 2 } := by
  have h := missing_tool_fails TOOLS cexGraphC7 198 1 "b" cexInitC7 cexInitC7 []
    (by decide) rfl
  simpa using h

/-- C7 counterexample.  The claim that the failed run record carries the state
"unchanged from the input state" is false once a node precedes the missing
tool: running `cexGraphC7` (node `a` executes `profile`, node `b` references
the missing tool `nonexistent`) on `dict(data = [None])` ends `Failed` with
the `Missing tool` entry logged, but the recorded state has gained the
`profile` key and differs from the run input state. -/
theorem missing_tool_state_cex :
    (execute_graph TOOLS cexGraphC7 cexInitC7).status = .failed ∧
    missingEntry cexGraphC7 "b" ∈ (execute_graph TOOLS cexGraphC7 cexInitC7).log ∧
    (execute_graph TOOLS cexGraphC7 cexInitC7).state ≠ cexInitC7 := by
  refine ⟨by decide, by decide, by decide⟩

/-- C8.  Tool-failure atomicity: from any loop configuration, if the bound
tool raises, the executor catches the error at the node boundary and returns
at once: status `Failed`, the log gains an `Exception in ...` entry carrying
the error description, the persisted state is exactly the state produced by
the last successful node (the failing node contributes no state change), and
the run never resumes. -/
theorem tool_failure_atomic (tools : String → Option PyTool) (graph : GraphDef)
    (fuel visited : Nat) (current : String) (state prev : Value) (log : List String)
    (fn : PyTool) (e : String)
    (hcur : current ≠ "")
    (hfn : getTool tools graph current = some fn)
    (hres : fn state = .error e) :
    execLoop tools graph (fuel + 1) current state prev log visited =
      { state := state,
        log := (log ++ [runEntry graph current]) ++ [excEntry graph current e],
        status := .failed, executions := visited + 1 } := by
  simp [execLoop, hcur, hfn, hres]

/-- Witness for `tool_failure_atomic`: `profile` raises on
`dict(data = 5)` because `data` is not iterable. -/
theorem tool_failure_atomic_witness :
    execute_graph TOOLS failGraphC8 badInitC8 =
      { state := badInitC8,
        log := [runEntry failGraphC8 "p",
                excEntry failGraphC8 "p" "TypeError: object is not iterable"],
        status := .failed, executions := 1 } := by
  have h := tool_failure_atomic TOOLS failGraphC8 199 0 "p" badInitC8 badInitC8 []
    profile_data_tool "TypeError: object is not iterable" (by decide) rfl rfl
  simpa using h

theorem unchanged_stop (tools : String → Option PyTool) (graph : GraphDef)
    (fuel visited : Nat) (current : String) (state prev : Value) (log : List String)
    (fn : PyTool) (result mv : Value)
    (hcur : current ≠ "")
    (hfn : getTool tools graph current = some fn)
    (hres : fn state = .ok result)
    (hcond : _condition_satisfied graph (newState state result) = .ok (false, mv))
    (heq : newState state result = prev) :
    execLoop tools graph (fuel + 1) current state prev log visited =
      { state := prev,
        log := (log ++ [runEntry graph current]) ++ [unchangedEntry],
        status := .finished, executions := visited + 1 } := by
  rw [heq] at hcond
  simp [execLoop, hcur, hfn, hres, heq, hcond]

/-- C3.  Safety fixed point: a graph consisting of a single node bound to a
tool that is the identity on the run state, with a self-edge, terminates with
status `Finished` after exactly one real node execution followed immediately
by the no-change detection (the `State unchanged` log entry), for every step
cap of at least one — the cap plays no role. -/
theorem safety_fixed_point (tools : String → Option PyTool)
    (name tname : String) (fn : PyTool) (init : Value) (cap : Nat)
    (hname : name ≠ "")
    (hfn : tools tname = some fn)
    (hid : ∀ s, fn s = .ok s)
    (hcap : 1 ≤ cap) :
    execute_graph_cap tools (singletonGraph name tname) cap init =
      { state := init,
        log := [runEntry (singletonGraph name tname) name, unchangedEntry],
        status := .finished, executions := 1 } := by
  obtain ⟨c, rfl⟩ : ∃ c, cap = c + 1 := ⟨cap - 1, by omega⟩
  have hn : newState init init = init := by
    simp [newState]
  have hcond : _condition_satisfied (singletonGraph name tname) (newState init init) =
      .ok (false, .null) := by
    simp [_condition_satisfied, singletonGraph]
  have hget : getTool tools (singletonGraph name tname) name = some fn := by
    simp [getTool, toolNameOf, singletonGraph, lookupStr, hfn]
  have h := unchanged_stop tools (singletonGraph name tname) c 0 name init init []
    fn init .null hname hget (hid init) hcond hn
  have hstart : (singletonGraph name tname).start_node = name := rfl
  rw [execute_graph_cap, hstart]
  simpa using h

/-- Witness for `safety_fixed_point`: the identity tool `id` of `idRegistry`
on a one-node self-loop, with cap 7. -/
theorem safety_fixed_point_witness :
    execute_graph_cap idRegistry (singletonGraph "n" "id") 7 (.dict []) =
      { state := .dict [],
        log := [runEntry (singletonGraph "n" "id") "n", unchangedEntry],
        status := .finished, executions := 1 } := by
  have h := safety_fixed_point idRegistry "n" "id" (fun s => .ok s) (.dict []) 7
    (by decide) rfl (fun s => rfl) (by omega)
  simpa using h

theorem execLoop_executions_le (tools : String → Option PyTool) (graph : GraphDef) :
    ∀ (fuel : Nat) (current : String) (state prev : Value) (log : List String)
      (visited : Nat),
    (execLoop tools graph fuel current state prev log visited).executions ≤ visited + fuel
  | 0, current, state, prev, log, visited => by simp [execLoop, normalFinish]
  | fuel + 1, current, state, prev, log, visited => by
      have ih := fun cur st pr lg vis =>
        execLoop_executions_le tools graph fuel cur st pr lg vis
      unfold execLoop
      repeat' split
      all_goals simp [normalFinish]
      all_goals exact le_trans (ih _ _ _ _ _) (by omega)

theorem execLoop_noCond_terminal (tools : String → Option PyTool) (graph : GraphDef)
    (hnc : graph.loop_condition = none) :
    ∀ (fuel : Nat) (current : String) (state prev : Value) (log : List String)
      (visited : Nat),
    (execLoop tools graph fuel current state prev log visited).status = .finished ∨
    (execLoop tools graph fuel current state prev log visited).status = .failed
  | 0, current, state, prev, log, visited => by
      left; simp [execLoop, normalFinish]
  | fuel + 1, current, state, prev, log, visited => by
      have hcs : ∀ snap, _condition_satisfied graph snap = Except.ok (false, Value.null) :=
        fun snap => by simp [_condition_satisfied, hnc]
      unfold execLoop
      by_cases hc : current = ""
      · rw [if_pos hc]; left; simp [normalFinish]
      · rw [if_neg hc]
        split
        · right; rfl
        · rename_i fn hfn
          split
          · right; rfl
          · rename_i result hres
            split
            · rename_i a hcond2
              rw [hcs] at hcond2
              simp at hcond2
            · rename_i satisfied mv hcond2
              rw [hcs] at hcond2
              simp only [Except.ok.injEq, Prod.mk.injEq] at hcond2
              obtain ⟨h1, h2⟩ := hcond2
              subst h1
              simp only [Bool.false_eq_true, if_false]
              by_cases hp : newState state result = prev
              · rw [if_pos hp]; left; rfl
              · rw [if_neg hp]
                split
                · left; simp [normalFinish]
                · rename_i next hnext
                  by_cases hn : next = ""
                  · rw [if_pos hn]; left; simp [normalFinish]
                  · rw [if_neg hn]
                    exact execLoop_noCond_terminal tools graph hnc fuel next
                      (newState state result) (newState state result)
                      (log ++ [runEntry graph current]) (visited + 1)

/-- C9.  Step budget: every run executes at most 200 loop steps; a run
whose graph has no `loop_condition` always terminates (status `Finished` or
`Failed`, never stuck `running`); and when the fuel derived from the
200-step cap runs out without any terminal branch having fired, the trailing
block completes the run with status `Finished`, not `Failed`. -/
theorem step_budget (tools : String → Option PyTool) (graph : GraphDef) (init : Value)
    (current : String) (state prev : Value) (log : List String) (visited : Nat) :
    (execute_graph tools graph init).executions ≤ 200 ∧
    (graph.loop_condition = none →
      (execute_graph tools graph init).status = .finished ∨
      (execute_graph tools graph init).status = .failed) ∧
    (execLoop tools graph 0 current state prev log visited).status = .finished := by
  refine ⟨?_, ?_, ?_⟩
  · have h := execLoop_executions_le tools graph 200 graph.start_node init init [] 0
    simpa [execute_graph, execute_graph_cap] using h
  · intro hnc
    have h := execLoop_noCond_terminal tools graph hnc 200 graph.start_node init init [] 0
    simpa [execute_graph, execute_graph_cap] using h
  · simp [execLoop, normalFinish]

/-- Witness for `step_budget` on the concrete pipeline run. -/
theorem step_budget_witness :
    (execute_graph TOOLS pipelineGraph pipelineInit).executions ≤ 200 ∧
    ((execute_graph TOOLS pipelineGraph pipelineInit).status = .finished ∨
      (execute_graph TOOLS pipelineGraph pipelineInit).status = .failed) ∧
    (execLoop TOOLS pipelineGraph 0 "profile" pipelineInit pipelineInit [] 200).status =
      .finished := by
  have h := step_budget TOOLS pipelineGraph pipelineInit "profile" pipelineInit
    pipelineInit [] 200
  exact ⟨h.1, h.2.1 rfl, h.2.2⟩

theorem dictGetD_dict (fields : List (String × Value)) (k : String) (d : Value) :
    dictGetD (.dict fields) k d = .ok ((lookupStr fields k).getD d) := by
  cases h : lookupStr fields k with
  | none => simp [dictGetD, h]
  | some x => simp [dictGetD, h]

theorem apply_rules_ok_iff (fields : List (String × Value)) (s' : Value) :
    apply_rules_tool (.dict fields) = .ok s' ↔
    ∃ xs newData,
      asList ((lookupStr fields "data").getD (.list [])) = .ok xs ∧
      mapExcept (applyElem ((lookupStr fields "rules").getD (.list []))) xs =
        .ok newData ∧
      s' = .dict (setField fields "data" (.list newData)) := by
  unfold apply_rules_tool
  rw [dictGetD_dict, dictGetD_dict]
  cases h3 : asList ((lookupStr fields "data").getD (.list [])) with
  | error e => simp [h3]
  | ok xs =>
      cases h4 : mapExcept (applyElem ((lookupStr fields "rules").getD (.list []))) xs with
      | error e => simp [h3, h4]
      | ok nd => simp [h3, h4, dictSet, eq_comm]

/-- C10.  Frame property of `apply_rules`: a successful application modifies
only the `data` key — every other key of the input state maps to the same
value in the output state. -/
theorem apply_rules_frame (s s' : Value) (k : String)
    (hk : k ≠ "data")
    (h : apply_rules_tool s = .ok s') :
    dictLookup s' k = dictLookup s k := by
  cases s with
  | null => simp [apply_rules_tool, dictGetD] at h
  | num n => simp [apply_rules_tool, dictGetD] at h
  | str t => simp [apply_rules_tool, dictGetD] at h
  | bool b => simp [apply_rules_tool, dictGetD] at h
  | list vs => simp [apply_rules_tool, dictGetD] at h
  | dict fields =>
      obtain ⟨xs, newData, _, _, rfl⟩ := (apply_rules_ok_iff fields s').mp h
      simp only [dictLookup]
      exact lookupStr_setField_ne fields "data" k (.list newData) hk

/-- Witness for `apply_rules_frame`: `apply_rules` on `stableStateC6` leaves
the `rules` key untouched. -/
theorem apply_rules_frame_witness :
    dictLookup (.dict (setField [("data", .list [.num 1, .null, .num 150]),
        ("rules", .list [fillNullRule, clipRule (.num 0) (.num 100)])] "data"
        (.list [.num 1, .num 0, .num 100]))) "rules" =
      dictLookup stableStateC6 "rules" := by
  exact apply_rules_frame stableStateC6 _ "rules" (by decide) rfl

theorem pyMin_ok : ∀ (a b m : Value), pyMin a b = .ok m →
    ∃ x y, a = .num x ∧ b = .num y ∧ m = .num (min x y)
  | .num x, .num y, m, h => ⟨x, y, rfl, rfl, by simpa [pyMin] using h.symm⟩
  | .num _, .null, _, h => by simp [pyMin] at h
  | .num _, .str _, _, h => by simp [pyMin] at h
  | .num _, .bool _, _, h => by simp [pyMin] at h
  | .num _, .list _, _, h => by simp [pyMin] at h
  | .num _, .dict _, _, h => by simp [pyMin] at h
  | .null, _, _, h => by simp [pyMin] at h
  | .str _, _, _, h => by simp [pyMin] at h
  | .bool _, _, _, h => by simp [pyMin] at h
  | .list _, _, _, h => by simp [pyMin] at h
  | .dict _, _, _, h => by simp [pyMin] at h

theorem pyMax_ok : ∀ (a b m : Value), pyMax a b = .ok m →
    ∃ x y, a = .num x ∧ b = .num y ∧ m = .num (max x y)
  | .num x, .num y, m, h => ⟨x, y, rfl, rfl, by simpa [pyMax] using h.symm⟩
  | .num _, .null, _, h => by simp [pyMax] at h
  | .num _, .str _, _, h => by simp [pyMax] at h
  | .num _, .bool _, _, h => by simp [pyMax] at h
  | .num _, .list _, _, h => by simp [pyMax] at h
  | .num _, .dict _, _, h => by simp [pyMax] at h
  | .null, _, _, h => by simp [pyMax] at h
  | .str _, _, _, h => by simp [pyMax] at h
  | .bool _, _, _, h => by simp [pyMax] at h
  | .list _, _, _, h => by simp [pyMax] at h
  | .dict _, _, _, h => by simp [pyMax] at h

theorem clampWith_ok (c v y : Value) (h : clampWith c v = .ok y) :
    ∃ lo hi a, strictGet c "low" = .ok (.num lo) ∧ strictGet c "high" = .ok (.num hi) ∧
      v = .num a ∧ y = .num (max lo (min hi a)) := by
  unfold clampWith at h
  cases h1 : strictGet c "low" with
  | error e => simp [h1] at h
  | ok low =>
      simp only [h1] at h
      cases h2 : strictGet c "high" with
      | error e => simp [h2] at h
      | ok high =>
          simp only [h2] at h
          cases h3 : pyMin high v with
          | error e => simp [h3] at h
          | ok m =>
              simp only [h3] at h
              obtain ⟨hi, a, rfl, rfl, rfl⟩ := pyMin_ok high v m h3
              obtain ⟨lo, m2, rfl, hm2, rfl⟩ := pyMax_ok low (.num (min hi a)) y h
              obtain rfl : m2 = min hi a := by
                injection hm2 with hh
                exact hh.symm
              exact ⟨lo, hi, a, rfl, rfl, rfl, rfl⟩

theorem clampWith_idem (c v y : Value) (h : clampWith c v = .ok y) :
    clampWith c y = .ok y := by
  obtain ⟨lo, hi, a, h1, h2, rfl, rfl⟩ := clampWith_ok c v y h
  unfold clampWith
  simp only [h1, h2, pyMin, pyMax, Except.ok.injEq, Value.num.injEq]
  omega

theorem applyElem_idem (rules x y : Value) (hst : fillStableB rules = true)
    (h : applyElem rules x = .ok y) : applyElem rules y = .ok y := by
  unfold applyElem at h
  by_cases hx : isNull x = true
  · rw [if_pos hx] at h
    cases hf : findRule rules "fill_null" with
    | error e => simp [hf] at h
    | ok or =>
        cases or with
        | none =>
            simp only [hf] at h
            obtain rfl : x = y := by simpa using h
            unfold applyElem
            rw [if_pos hx]
            simp only [hf]
        | some r =>
            simp only [hf] at h
            by_cases hy : isNull y = true
            · unfold applyElem
              rw [if_pos hy]
              simp only [hf]
              exact h
            · unfold applyElem
              rw [if_neg hy]
              unfold fillStableB at hst
              simp only [hf, h] at hst
              have hyne : y ≠ .null := by
                intro hh
                subst hh
                simp [isNull] at hy
              rw [if_neg hyne] at hst
              cases hc : findRule rules "clip" with
              | error e => simp [hc] at hst
              | ok oc =>
                  cases oc with
                  | none => simp only [hc]
                  | some c =>
                      simp only [hc] at hst
                      simp only [hc]
                      cases hcl : clampWith c y with
                      | error e =>
                          simp only [hcl] at hst
                          exact absurd hst (by simp)
                      | ok f2 =>
                          simp only [hcl] at hst
                          rw [of_decide_eq_true hst]
  · rw [if_neg hx] at h
    cases hc : findRule rules "clip" with
    | error e => simp [hc] at h
    | ok oc =>
        cases oc with
        | none =>
            simp only [hc] at h
            obtain rfl : x = y := by simpa using h
            unfold applyElem
            rw [if_neg hx]
            simp only [hc]
        | some c =>
            simp only [hc] at h
            obtain ⟨lo, hi, a, h1, h2, hx2, hy2⟩ := clampWith_ok c x y h
            have hyn : ¬(isNull y = true) := by
              subst hy2
              simp [isNull]
            unfold applyElem
            rw [if_neg hyn]
            simp only [hc]
            exact clampWith_idem c x y h

theorem mapExcept_idem (rules : Value) (hst : fillStableB rules = true) :
    ∀ (xs ys : List Value), mapExcept (applyElem rules) xs = .ok ys →
    mapExcept (applyElem rules) ys = .ok ys
  | [], ys, h => by
      simp only [mapExcept] at h
      obtain rfl : ys = [] := by simpa using h.symm
      rfl
  | x :: xs, ys, h => by
      simp only [mapExcept] at h
      cases h1 : applyElem rules x with
      | error e => simp [h1] at h
      | ok y =>
          simp only [h1] at h
          cases h2 : mapExcept (applyElem rules) xs with
          | error e => simp [h2] at h
          | ok ys' =>
              simp only [h2] at h
              obtain rfl : ys = y :: ys' := by simpa using h.symm
              simp only [mapExcept, applyElem_idem rules x y hst h1,
                mapExcept_idem rules hst xs ys' h2]

/-- C6 counterexample.  `apply_rules` is not idempotent on every `RunState`:
with `data = [None]` and rules `fill_null(value = 500)`, `clip(0, 100)`, the
first application produces `data = [500]` and the second application clips
the filled value, producing `data = [100]` — not identical to the first
application's output. -/
theorem apply_rules_not_idempotent_cex :
    apply_rules_tool cexStateC6 =
      .ok (.dict [("data", .list [.num 500]),
                  ("rules", .list [fillRule500, clipRule (.num 0) (.num 100)])]) ∧
    apply_rules_tool (.dict [("data", .list [.num 500]),
        ("rules", .list [fillRule500, clipRule (.num 0) (.num 100)])]) =
      .ok (.dict [("data", .list [.num 100]),
                  ("rules", .list [fillRule500, clipRule (.num 0) (.num 100)])]) ∧
    Value.list [.num 100] ≠ Value.list [.num 500] :=
  ⟨rfl, rfl, by decide⟩

/-- C6 amended.  `apply_rules` is idempotent on `data` for every state whose
rules are stable (`fillStableB`): when a `fill_null` rule with a non-`None`
fill value coexists with the clip machinery, clamping the fill value must
return it unchanged (and the clip search must not raise).  Under that side
condition — forced by the counterexample — a successful application followed
by a second application succeeds and leaves `data` identical. -/
theorem apply_rules_idempotent_stable (s s₁ rules : Value)
    (hr : dictGetD s "rules" (.list []) = .ok rules)
    (hst : fillStableB rules = true)
    (h : apply_rules_tool s = .ok s₁) :
    ∃ s₂, apply_rules_tool s₁ = .ok s₂ ∧
      dictLookup s₂ "data" = dictLookup s₁ "data" := by
  cases s with
  | null => simp [apply_rules_tool, dictGetD] at h
  | num n => simp [apply_rules_tool, dictGetD] at h
  | str t => simp [apply_rules_tool, dictGetD] at h
  | bool b => simp [apply_rules_tool, dictGetD] at h
  | list vs => simp [apply_rules_tool, dictGetD] at h
  | dict fields =>
      obtain ⟨xs, newData, hxs, hmap, rfl⟩ := (apply_rules_ok_iff fields s₁).mp h
      rw [dictGetD_dict] at hr
      obtain rfl : rules = (lookupStr fields "rules").getD (.list []) := by
        simpa using hr.symm
      refine ⟨.dict (setField (setField fields "data" (.list newData)) "data"
        (.list newData)), ?_, ?_⟩
      · rw [apply_rules_ok_iff]
        refine ⟨newData, newData, ?_, ?_, rfl⟩
        · rw [lookupStr_setField_self]
          rfl
        · rw [lookupStr_setField_ne fields "data" "rules" (.list newData) (by decide)]
          exact mapExcept_idem _ hst xs newData hmap
      · simp only [dictLookup]
        rw [lookupStr_setField_self, lookupStr_setField_self]

/-- Witness for `apply_rules_idempotent_stable` on `stableStateC6`, whose
fill value 0 lies inside the clip bounds. -/
theorem apply_rules_idempotent_stable_witness :
    ∃ s₂, apply_rules_tool (.dict [("data", .list [.num 1, .num 0, .num 100]),
        ("rules", .list [fillNullRule, clipRule (.num 0) (.num 100)])]) = .ok s₂ ∧
      dictLookup s₂ "data" =
        dictLookup (.dict [("data", .list [.num 1, .num 0, .num 100]),
          ("rules", .list [fillNullRule, clipRule (.num 0) (.num 100)])]) "data" := by
  exact apply_rules_idempotent_stable stableStateC6
    (.dict [("data", .list [.num 1, .num 0, .num 100]),
        ("rules", .list [fillNullRule, clipRule (.num 0) (.num 100)])])
    (.list [fillNullRule, clipRule (.num 0) (.num 100)]) rfl (by decide) rfl

end AppOg
